import Mathlib

/-
Shallow embedding of the Humanet Streamlit front-end (src/streamlit_app.py):
a session-gated view renderer. Python None is modelled as Option.none,
st.session_state fields as a Session record, HTTP responses as
Except HttpError, and the st.success and st.error calls as a Rendered value.
-/

namespace Humanet

/- ---------------------------------------------------------------
   Python string primitives used by the handlers:
   str.strip and str.splitlines (whitespace and line-boundary sets
   follow the Python documentation).
   --------------------------------------------------------------- -/

/-- Characters Python str.strip removes (the Unicode whitespace set of
str.isspace). -/
def pyIsSpace (c : Char) : Bool :=
  c.val = 0x20 || c.val = 0x09 || c.val = 0x0a || c.val = 0x0b ||
  c.val = 0x0c || c.val = 0x0d || c.val = 0x1c || c.val = 0x1d ||
  c.val = 0x1e || c.val = 0x1f || c.val = 0x85 || c.val = 0xa0 ||
  c.val = 0x1680 || (0x2000 ≤ c.val && c.val ≤ 0x200a) ||
  c.val = 0x2028 || c.val = 0x2029 || c.val = 0x202f ||
  c.val = 0x205f || c.val = 0x3000

/-- Python str.strip with no argument: drop leading and trailing whitespace. -/
def pyStrip (s : String) : String :=
  String.mk (((s.data.dropWhile pyIsSpace).reverse.dropWhile pyIsSpace).reverse)

/-- Line boundary characters of Python str.splitlines. -/
def isLineBreakChar (c : Char) : Bool :=
  c.val = 0x0a || c.val = 0x0d || c.val = 0x0b || c.val = 0x0c ||
  c.val = 0x1c || c.val = 0x1d || c.val = 0x1e || c.val = 0x85 ||
  c.val = 0x2028 || c.val = 0x2029

/-- Worker for pySplitlines: acc holds the current line reversed. -/
def splitlinesGo : List Char → List Char → List (List Char)
  | [], acc => [acc.reverse]
  | '\x0d' :: '\x0a' :: rest, acc =>
      acc.reverse :: (if rest.isEmpty then [] else splitlinesGo rest [])
  | c :: rest, acc =>
      if isLineBreakChar c then
        acc.reverse :: (if rest.isEmpty then [] else splitlinesGo rest [])
      else
        splitlinesGo rest (c :: acc)

/-- Python str.splitlines: split at line boundaries, CRLF counting as one
boundary, with no trailing empty line and the empty string giving []. -/
def pySplitlines (s : String) : List String :=
  if s.data.isEmpty then [] else (splitlinesGo s.data []).map String.mk

/- ---------------------------------------------------------------
   Session state (st.session_state keys token, role, email, name,
   location, age, ngo_goals; lines 54-67 of the source).
   --------------------------------------------------------------- -/

/-- The per-user session: every field is absent (None) or holds a value. -/
structure Session where
  token : Option String
  role : Option String
  email : Option String
  name : Option String
  location : Option String
  age : Option Int
  ngo_goals : Option String
deriving Repr, DecidableEq

/-- Session created empty at session start (the source initialises every
missing key to None). -/
def Session.init : Session :=
  { token := none, role := none, email := none, name := none,
    location := none, age := none, ngo_goals := none }

/-- Python truthiness of an optional string: None and the empty string are
falsy, any other string is truthy. -/
def optStrTruthy : Option String → Bool
  | none => false
  | some t => t ≠ ""

/- ---------------------------------------------------------------
   Request gateway (api_get lines 23-29, api_post lines 31-37).
   --------------------------------------------------------------- -/

/-- Headers attached by api_get: accept json always, and an Authorization
bearer header exactly when the token argument is truthy. -/
def api_get_headers : Option String → List (String × String)
  | none => [("accept", "application/json")]
  | some t =>
      if t = "" then [("accept", "application/json")]
      else [("accept", "application/json"), ("Authorization", "Bearer " ++ t)]

/-- Headers attached by api_post: accept json and Content-Type json always,
and an Authorization bearer header exactly when the token argument is
truthy. -/
def api_post_headers : Option String → List (String × String)
  | none => [("accept", "application/json"), ("Content-Type", "application/json")]
  | some t =>
      if t = "" then
        [("accept", "application/json"), ("Content-Type", "application/json")]
      else
        [("accept", "application/json"), ("Content-Type", "application/json"),
         ("Authorization", "Bearer " ++ t)]

/-- Timeout in seconds passed by api_get to requests.get. -/
def api_get_timeout : Nat := 30

/-- Timeout in seconds passed by api_post to requests.post. -/
def api_post_timeout : Nat := 60

/-- A non-2xx HTTP response surfaced by raise_for_status: the requests
HTTPError, carrying the status code and the raw response body text. -/
structure HttpError where
  status : Nat
  body : String
deriving Repr, DecidableEq

/-- The success shape used by both auth endpoints: only access_token is read. -/
structure AuthResponse where
  access_token : String
deriving Repr, DecidableEq

/-- What a handler renders next to its form: st.success, st.error or st.info. -/
inductive Rendered where
  | successMsg (m : String)
  | errorMsg (m : String)
  | infoMsg (m : String)
deriving Repr, DecidableEq

/- ---------------------------------------------------------------
   Auth handlers (Sign up lines 111-134, Login lines 136-149,
   Logout lines 85-89).
   --------------------------------------------------------------- -/

/-- The registration form inputs (selectbox role plus the six text inputs;
goals is the empty string unless the NGO role is selected). -/
structure RegisterForm where
  role : String
  name : String
  email : String
  password : String
  location : String
  age : Int
  goals : String
deriving Repr, DecidableEq

/-- Session mutation on a successful register (source lines 123-129):
every field is assigned from the response token and the form. -/
def registerSuccess (f : RegisterForm) (r : AuthResponse) (s : Session) : Session :=
  { s with
    token := some r.access_token
    role := some f.role
    email := some (pyStrip f.email)
    name := some (pyStrip f.name)
    location := some (pyStrip f.location)
    age := if f.role = "Individual" then some f.age else none
    ngo_goals := if f.role = "NGO" then some (pyStrip f.goals) else none }

/-- The Create account click (source lines 111-134): the api_post outcome is
matched; the except branch renders the error inline and leaves the session
untouched. -/
def registerHandler (f : RegisterForm) (resp : Except HttpError AuthResponse)
    (s : Session) : Session × Rendered :=
  match resp with
  | .ok r => (registerSuccess f r s, .successMsg "Account created & logged in.")
  | .error e => (s, .errorMsg ("Sign up failed: " ++ e.body))

/-- Session mutation on a successful login (source lines 143-144): only
token and email are assigned; the login response carries no role. -/
def loginSuccess (email : String) (r : AuthResponse) (s : Session) : Session :=
  { s with token := some r.access_token, email := some (pyStrip email) }

/-- The Login click (source lines 139-149). -/
def loginHandler (email : String) (resp : Except HttpError AuthResponse)
    (s : Session) : Session × Rendered :=
  match resp with
  | .ok r => (loginSuccess email r s, .successMsg "Logged in.")
  | .error e => (s, .errorMsg ("Login failed: " ++ e.body))

/-- The Logout click (source lines 85-89): token, role and email are set to
None; the remaining session keys are not assigned. -/
def logout (s : Session) : Session :=
  { s with token := none, role := none, email := none }

/- ---------------------------------------------------------------
   Auth gate and views (require_auth lines 39-42, module gate
   lines 152-153, tabs lines 158-161).
   --------------------------------------------------------------- -/

/-- require_auth (source lines 39-42): true means execution proceeds, false
means st.stop ends the script before any gated code runs. -/
def require_auth (s : Session) : Bool :=
  optStrTruthy s.token

/-- The six authenticated views behind the tabs. -/
inductive View where
  | surveys | civicReports | skillUp | discussions | aiReport | profile
deriving Repr, DecidableEq

/-- The module-level gate (source lines 152-153): when the token is falsy
the script stops and no tab is rendered; otherwise all six tabs render. -/
def renderedViews (s : Session) : List View :=
  if optStrTruthy s.token then
    [View.surveys, View.civicReports, View.skillUp, View.discussions,
     View.aiReport, View.profile]
  else []

/- ---------------------------------------------------------------
   The user-triggered actions and their failure branches.  Every
   gateway call in the script sits inside try-except requests.HTTPError
   whose body is a single st.error adjacent to the triggering form.
   --------------------------------------------------------------- -/

/-- The thirteen gateway calls of the authenticated views (source lines
175, 192, 222, 244, 261, 289, 304, 324, 338, 365, 375, 387, 409). -/
inductive ViewAction where
  | listSurveys | respondSurvey | createSurvey | civicReport | loadFeed
  | createTutorial | loadTutorials | createOpportunity | loadOpportunities
  | newTopic | listDiscussions | postComment | aiReport
deriving Repr, DecidableEq

/-- Every user-triggered gateway call in the script: the two auth actions
plus the thirteen view actions. -/
inductive Action where
  | register | login | view (v : ViewAction)
deriving Repr, DecidableEq

/-- The except requests.HTTPError branch of each action handler, exactly as
written in the source: an st.error with the handler label followed by
e.response.text, and no session assignment. -/
def actionOnFailure (a : Action) (e : HttpError) (s : Session) : Session × Rendered :=
  match a with
  | .register => (s, .errorMsg ("Sign up failed: " ++ e.body))
  | .login => (s, .errorMsg ("Login failed: " ++ e.body))
  | .view .listSurveys => (s, .errorMsg ("List failed: " ++ e.body))
  | .view .respondSurvey => (s, .errorMsg ("Submit failed: " ++ e.body))
  | .view .createSurvey => (s, .errorMsg ("Create failed: " ++ e.body))
  | .view .civicReport => (s, .errorMsg ("Submit failed: " ++ e.body))
  | .view .loadFeed => (s, .errorMsg ("Load failed: " ++ e.body))
  | .view .createTutorial => (s, .errorMsg ("Create failed: " ++ e.body))
  | .view .loadTutorials => (s, .errorMsg ("Load failed: " ++ e.body))
  | .view .createOpportunity => (s, .errorMsg ("Create failed: " ++ e.body))
  | .view .loadOpportunities => (s, .errorMsg ("Load failed: " ++ e.body))
  | .view .newTopic => (s, .errorMsg ("Topic creation failed: " ++ e.body))
  | .view .listDiscussions => (s, .errorMsg ("Failed to load discussions: " ++ e.body))
  | .view .postComment => (s, .errorMsg ("Comment failed: " ++ e.body))
  | .view .aiReport => (s, .errorMsg ("Report failed: " ++ e.body))

/- ---------------------------------------------------------------
   Surveys tab (lines 166-225).
   --------------------------------------------------------------- -/

/-- A survey as rendered by the list (fields read at lines 179-188). -/
structure Survey where
  id : Nat
  title : String
  sdg : Nat
  target_location : String
  questions : List String
deriving Repr, DecidableEq

/-- Body of the survey response request (line 193): a single answers field
holding the index-to-text map. -/
structure RespondBody where
  answers : List (Nat × String)
deriving Repr, DecidableEq

/-- The request built by the Submit Answers handler (lines 192-194): path
and body. -/
def surveyRespondRequest (sid : Nat) (answers : List (Nat × String)) :
    String × RespondBody :=
  ("/surveys/" ++ toString sid ++ "/respond", ⟨answers⟩)

/-- The Submit Answers outcome handling (lines 190-197): the rendered survey
list is threaded through unchanged; success renders st.success, failure the
inline st.error. -/
def surveyRespondHandler (resp : Except HttpError Unit)
    (surveyList : List Survey) : List Survey × Rendered :=
  match resp with
  | .ok _ => (surveyList, .successMsg "Submitted. Thank you!")
  | .error e => (surveyList, .errorMsg ("Submit failed: " ++ e.body))

/-- Questions parsing in the Create Survey handler (line 214): strip each
splitlines line and keep the truthy ones. -/
def parseQuestions (questions_blob : String) : List String :=
  ((pySplitlines questions_blob).map pyStrip).filter (fun q => q ≠ "")

/-- Body of the create-survey request (lines 215-221). -/
structure CreateSurveyBody where
  title : String
  description : String
  sdg : Int
  target_location : String
  questions : List String
deriving Repr, DecidableEq

/-- The request built by the Create Survey handler (lines 212-222). -/
def createSurveyRequest (title description : String) (sdg : Int)
    (target_location questions_blob : String) : String × CreateSurveyBody :=
  ("/surveys/create",
   { title := pyStrip title
     description := pyStrip description
     sdg := sdg
     target_location := pyStrip target_location
     questions := parseQuestions questions_blob })

/-- Spec-side reading of the questions transformation: for every input text
the list sent is exactly the non-blank trimmed lines in original order. -/
def specNonBlankTrimmedLines (questions_blob : String) : List String :=
  (pySplitlines questions_blob).filterMap (fun line =>
    let t := pyStrip line
    if t = "" then none else some t)

/- ---------------------------------------------------------------
   Session-mutating events (claim C9): the complete set of code paths
   that assign any st.session_state field after initialisation.
   --------------------------------------------------------------- -/

/-- Every event of one script run that can touch the session: the outcome of
a register submit, of a login submit, the Logout click, and any of the
thirteen view actions (whose handlers never assign a session key). -/
inductive Event where
  | registerResult (f : RegisterForm) (resp : Except HttpError AuthResponse)
  | loginResult (email : String) (resp : Except HttpError AuthResponse)
  | logoutClick
  | viewResult (v : ViewAction)

/-- The session transition of each event, read off the source handlers. -/
def step : Event → Session → Session
  | .registerResult f resp, s => (registerHandler f resp s).1
  | .loginResult em resp, s => (loginHandler em resp s).1
  | .logoutClick, s => logout s
  | .viewResult _, s => s

/- ---------------------------------------------------------------
   Concrete sessions and forms used by counterexamples and witnesses.
   --------------------------------------------------------------- -/

/-- A fully populated Individual session, as produced by a register. -/
def c1Session : Session :=
  { token := some "tok", role := some "Individual", email := some "jane@x.org",
    name := some "Jane", location := some "Kampala", age := some 25,
    ngo_goals := none }

/-- An NGO session from an earlier register, before a fresh login. -/
def c4Session : Session :=
  { token := some "oldtok", role := some "NGO", email := some "old@x.org",
    name := some "SaveWater Org", location := some "Kampala", age := none,
    ngo_goals := some "water access" }

/-- A concrete registration form. -/
def c6Form : RegisterForm :=
  { role := "Individual", name := "Jane", email := "jane@x.org",
    password := "pw", location := "Kampala", age := 25, goals := "" }

/- ---------------------------------------------------------------
   Sanity checks of the embedded Python string primitives.
   --------------------------------------------------------------- -/

/-- splitlines sample: CRLF is one boundary, trailing newline adds no line. -/
theorem pySplitlines_sample :
    pySplitlines "a\r\nb\nc\n" = ["a", "b", "c"] := by decide

/-- parseQuestions sample: blank lines vanish, lines come out trimmed. -/
theorem parseQuestions_sample :
    parseQuestions " q1 \n\n q2\r\nq3\n  \n" = ["q1", "q2", "q3"] := by decide

/- ---------------------------------------------------------------
   Claim theorems.
   --------------------------------------------------------------- -/

/-- C1, counterexample: the claim says logout sets every session field to
absent, but on a fully populated session the Logout handler leaves name,
location and age holding their prior values. -/
theorem C1_counterexample :
    ¬ ((logout c1Session).name = none ∧ (logout c1Session).location = none ∧
       (logout c1Session).age = none) := by
  decide

/-- C1, amended: the Logout handler sets token, role and email to absent and
leaves name, location, age and ngo_goals exactly as previously held. -/
theorem C1_logout_clears_only_token_role_email (s : Session) :
    (logout s).token = none ∧ (logout s).role = none ∧
    (logout s).email = none ∧ (logout s).name = s.name ∧
    (logout s).location = s.location ∧ (logout s).age = s.age ∧
    (logout s).ngo_goals = s.ngo_goals :=
  ⟨rfl, rfl, rfl, rfl, rfl, rfl, rfl⟩

/-- C2: whenever the session token is absent, require_auth refuses and the
module-level gate stops the script before any of the six authenticated
views is rendered. -/
theorem C2_token_absent_blocks_views (s : Session) (h : s.token = none) :
    require_auth s = false ∧ renderedViews s = [] := by
  simp [require_auth, renderedViews, optStrTruthy, h]

/-- C2 witness: the initial (empty) session is refused. -/
theorem C2_witness :
    require_auth Session.init = false ∧ renderedViews Session.init = [] :=
  C2_token_absent_blocks_views Session.init rfl

/-- C3: after a successful register the session token equals the access
token of the response exactly, role, email, name and location come from the
form (text fields whitespace-trimmed), age is present only for the
Individual role and ngo_goals only for the NGO role. -/
theorem C3_register_sets_session (f : RegisterForm) (r : AuthResponse)
    (s : Session) :
    (registerHandler f (Except.ok r) s).1.token = some r.access_token ∧
    (registerHandler f (Except.ok r) s).1.role = some f.role ∧
    (registerHandler f (Except.ok r) s).1.email = some (pyStrip f.email) ∧
    (registerHandler f (Except.ok r) s).1.name = some (pyStrip f.name) ∧
    (registerHandler f (Except.ok r) s).1.location = some (pyStrip f.location) ∧
    (registerHandler f (Except.ok r) s).1.age
      = (if f.role = "Individual" then some f.age else none) ∧
    (registerHandler f (Except.ok r) s).1.ngo_goals
      = (if f.role = "NGO" then some (pyStrip f.goals) else none) :=
  ⟨rfl, rfl, rfl, rfl, rfl, rfl, rfl⟩

/-- C4, counterexample: the claim says every non-token field is unchanged by
a successful login, but the Login handler assigns email from the submitted
form, so a session that held a different email is changed. -/
theorem C4_counterexample :
    ¬ ((loginHandler "new@y.org" (Except.ok ⟨"tok2"⟩) c4Session).1.email
        = c4Session.email) := by
  decide

/-- C4, amended: after a successful login the token equals the returned
access token, email is set to the submitted email (trimmed), and role,
name, location, age and ngo_goals remain exactly as previously held. -/
theorem C4_login_token_email_frame (em : String) (r : AuthResponse)
    (s : Session) :
    (loginHandler em (Except.ok r) s).1.token = some r.access_token ∧
    (loginHandler em (Except.ok r) s).1.email = some (pyStrip em) ∧
    (loginHandler em (Except.ok r) s).1.role = s.role ∧
    (loginHandler em (Except.ok r) s).1.name = s.name ∧
    (loginHandler em (Except.ok r) s).1.location = s.location ∧
    (loginHandler em (Except.ok r) s).1.age = s.age ∧
    (loginHandler em (Except.ok r) s).1.ngo_goals = s.ngo_goals :=
  ⟨rfl, rfl, rfl, rfl, rfl, rfl, rfl⟩

/-- C5: for every user-triggered action, the failure branch leaves the
session untouched and renders an inline error message that carries the
response body, rather than escaping as an unhandled exception. -/
theorem C5_action_failure_inline (a : Action) (e : HttpError) (s : Session) :
    (actionOnFailure a e s).1 = s ∧
    ∃ m, (actionOnFailure a e s).2 = Rendered.errorMsg m ∧
      ∃ p, m = p ++ e.body := by
  obtain _ | _ | v := a
  · exact ⟨rfl, _, rfl, _, rfl⟩
  · exact ⟨rfl, _, rfl, _, rfl⟩
  · cases v <;> exact ⟨rfl, _, rfl, _, rfl⟩

/-- C6: when register fails with HTTP 400 and body bad email, the session
is unchanged (token still unset) and the rendered error message contains
the body text. -/
theorem C6_register_bad_email (f : RegisterForm) (s : Session)
    (h : s.token = none) :
    (registerHandler f (Except.error ⟨400, "bad email"⟩) s).1 = s ∧
    (registerHandler f (Except.error ⟨400, "bad email"⟩) s).1.token = none ∧
    ∃ p, (registerHandler f (Except.error ⟨400, "bad email"⟩) s).2
        = Rendered.errorMsg (p ++ "bad email") :=
  ⟨rfl, h, "Sign up failed: ", rfl⟩

/-- C6 witness: the concrete form submitted from the empty session. -/
theorem C6_witness :
    (registerHandler c6Form (Except.error ⟨400, "bad email"⟩) Session.init).1
        = Session.init ∧
    (registerHandler c6Form (Except.error ⟨400, "bad email"⟩) Session.init).1.token
        = none ∧
    ∃ p, (registerHandler c6Form (Except.error ⟨400, "bad email"⟩) Session.init).2
        = Rendered.errorMsg (p ++ "bad email") :=
  C6_register_bad_email c6Form Session.init rfl

/-- C7: both gateway operations attach the bearer Authorization header
exactly when a token is present (a non-empty string) and omit it otherwise,
both exchange JSON (accept on both, Content-Type on post), and the read
timeout is 30 seconds while the write timeout is 60 seconds. -/
theorem C7_gateway_contract :
    (∀ t : String, t ≠ "" →
      ("Authorization", "Bearer " ++ t) ∈ api_get_headers (some t) ∧
      ("Authorization", "Bearer " ++ t) ∈ api_post_headers (some t)) ∧
    (∀ tok : Option String, optStrTruthy tok = false →
      (∀ v, ("Authorization", v) ∉ api_get_headers tok) ∧
      (∀ v, ("Authorization", v) ∉ api_post_headers tok)) ∧
    (∀ tok : Option String,
      ("accept", "application/json") ∈ api_get_headers tok ∧
      ("accept", "application/json") ∈ api_post_headers tok ∧
      ("Content-Type", "application/json") ∈ api_post_headers tok) ∧
    api_get_timeout = 30 ∧ api_post_timeout = 60 := by
  refine ⟨?_, ?_, ?_, rfl, rfl⟩
  · intro t ht
    constructor <;> simp [api_get_headers, api_post_headers, ht]
  · intro tok htok
    match tok with
    | none =>
        constructor <;> intro v <;> simp [api_get_headers, api_post_headers]
    | some t =>
        have ht : t = "" := by
          by_contra hne
          simp [optStrTruthy, hne] at htok
        subst ht
        constructor <;> intro v <;> simp [api_get_headers, api_post_headers]
  · intro tok
    match tok with
    | none =>
        exact ⟨by simp [api_get_headers], by simp [api_post_headers],
               by simp [api_post_headers]⟩
    | some t =>
        by_cases ht : t = "" <;>
          exact ⟨by simp [api_get_headers, ht], by simp [api_post_headers, ht],
                 by simp [api_post_headers, ht]⟩

/-- C7 witness: a concrete non-empty token gets the bearer header on get,
and the read timeout is 30 seconds. -/
theorem C7_witness :
    ("Authorization", "Bearer " ++ "tk") ∈ api_get_headers (some "tk") ∧
    api_get_timeout = 30 :=
  ⟨(C7_gateway_contract.1 "tk" (by decide)).1, C7_gateway_contract.2.2.2.1⟩

/-- C8: submitting answers for survey 42 posts to the respond path of
survey 42 with the answers field exactly the given map, and on a 2xx
response renders the success confirmation with the survey list unchanged. -/
theorem C8_survey_respond (surveyList : List Survey) :
    (surveyRespondRequest 42 [(0, "yes"), (1, "no")]).1
        = "/surveys/42/respond" ∧
    (surveyRespondRequest 42 [(0, "yes"), (1, "no")]).2.answers
        = [(0, "yes"), (1, "no")] ∧
    surveyRespondHandler (Except.ok ()) surveyList
        = (surveyList, Rendered.successMsg "Submitted. Thank you!") :=
  ⟨rfl, rfl, rfl⟩

/-- C9: the only events that change the session token are a successful
register, a successful login (both setting it to the access token of the
response) and the Logout click (setting it to absent); every other code
path leaves the token as it was. -/
theorem C9_token_mutators (ev : Event) (s : Session)
    (h : (step ev s).token ≠ s.token) :
    (∃ f r, ev = Event.registerResult f (Except.ok r) ∧
            (step ev s).token = some r.access_token) ∨
    (∃ em r, ev = Event.loginResult em (Except.ok r) ∧
             (step ev s).token = some r.access_token) ∨
    (ev = Event.logoutClick ∧ (step ev s).token = none) := by
  match ev with
  | .registerResult f resp =>
      match resp with
      | .ok r => exact Or.inl ⟨f, r, rfl, rfl⟩
      | .error e => exact absurd rfl h
  | .loginResult em resp =>
      match resp with
      | .ok r => exact Or.inr (Or.inl ⟨em, r, rfl, rfl⟩)
      | .error e => exact absurd rfl h
  | .logoutClick => exact Or.inr (Or.inr ⟨rfl, rfl⟩)
  | .viewResult v => exact absurd rfl h

/-- C9 witness: the Logout click on a populated session changes the token,
and the characterisation names it as the logout mutator. -/
theorem C9_witness :
    (∃ f r, Event.logoutClick = Event.registerResult f (Except.ok r) ∧
            (step Event.logoutClick c1Session).token = some r.access_token) ∨
    (∃ em r, Event.logoutClick = Event.loginResult em (Except.ok r) ∧
             (step Event.logoutClick c1Session).token = some r.access_token) ∨
    (Event.logoutClick = Event.logoutClick ∧
     (step Event.logoutClick c1Session).token = none) :=
  C9_token_mutators Event.logoutClick c1Session (by decide)

/-- Map-then-filter over stripped lines agrees with the one-pass non-blank
trimmed-lines reading. -/
theorem map_strip_filter_eq_filterMap (l : List String) :
    (l.map pyStrip).filter (fun q => q ≠ "")
      = l.filterMap (fun line =>
          let t := pyStrip line
          if t = "" then none else some t) := by
  induction l with
  | nil => rfl
  | cons x xs ih =>
      by_cases h : pyStrip x = "" <;>
        simpa [List.filter_cons, List.filterMap_cons, h] using ih

/-- C10: the create-survey request goes to the create path and its
questions field is exactly the non-blank trimmed lines of the input text in
their original order. -/
theorem C10_questions_transform (title description : String) (sdg : Int)
    (target_location questions_blob : String) :
    (createSurveyRequest title description sdg target_location questions_blob).1
        = "/surveys/create" ∧
    (createSurveyRequest title description sdg target_location questions_blob).2.questions
        = specNonBlankTrimmedLines questions_blob :=
  ⟨rfl, map_strip_filter_eq_filterMap _⟩

end Humanet
